import Mathlib

/-!
Shallow embedding of `src/edubot/run.py` (the EduBot launcher).

The Python file is pure orchestration: token validation, runner
construction (blocking `BotRunner` and non-blocking
`InteractiveBotRunner`), a `click` CLI entry point, an IPython probe,
and an import-time fallback for locating the `edubot.bot` package.

Python values relevant to the token are modelled by `PyVal`
(a string, `None`, or some other non-string object).  Side effects
(constructing the bot, blocking runs, event-loop acquisition, debug-flag
mutation, task scheduling) are made observable as explicit `Event`
traces and explicit ambient event-loop state.  `assert` failures and
`ImportError`s are modelled with `Except`.
-/

namespace EduBotRun

/-- A Python value in token position: a string, `None`, or any other
non-string object. -/
inductive PyVal where
  | str (s : String)
  | pyNone
  | other
deriving DecidableEq, Repr

/-- `isinstance(token, str)` from `validate_token`. -/
def isinstance_str : PyVal → Bool
  | .str _ => true
  | _ => false

/-- `len(token)` for the string case (only evaluated after the
`isinstance` check succeeds, thanks to `and` short-circuiting). -/
def pyLen : PyVal → Nat
  | .str s => s.length
  | _ => 0

/-- The fixed assertion message in `BotRunner.validate_token`. -/
def tokenErrorMsg : String := "No Discord API token could be retrieved"

/-- `BotRunner.validate_token`:
`assert isinstance(token, str) and len(token) != 0, _error_msg`.
An assertion failure is modelled as `Except.error` carrying the message. -/
def validate_token (token : PyVal) : Except String Unit :=
  if isinstance_str token && (pyLen token != 0) then Except.ok ()
  else Except.error tokenErrorMsg

/-- The externally defined bot object constructed by `EduBot()`. -/
inductive EduBot where
  | mk
deriving DecidableEq, Repr

/-- A coroutine object: either `self.bot.start(token)` or an arbitrary
user-supplied coroutine (for interactive `create_task` use). -/
inductive Coro where
  | botStart (token : PyVal)
  | userCoro (n : Nat)
deriving DecidableEq, Repr

/-- Observable side effects of the launcher code. `executeCoro` is what
the host event loop would do later; the launcher itself never emits it. -/
inductive Event where
  | getLoop (loopId : Nat)
  | setLoopDebug (loopId : Nat) (b : Bool)
  | constructBot
  | botRunBlocking (token : PyVal)
  | scheduleTask (loopId : Nat) (c : Coro)
  | executeCoro (loopId : Nat) (c : Coro)
deriving DecidableEq, Repr

/-- The blocking runner object after successful construction. -/
structure BotRunner where
  bot : EduBot
deriving DecidableEq, Repr

/-- `BotRunner.run`: `self.bot.run(token)`, a blocking call on the bot. -/
def BotRunner.run (_r : BotRunner) (token : PyVal) : List Event :=
  [Event.botRunBlocking token]

/-- `BotRunner.__init__`: validates the token, constructs the bot, then
calls the (blocking) `run`.  Returns the trace of events that happened
together with either the constructed runner or the assertion error. -/
def BotRunner.init (token : PyVal) : List Event × Except String BotRunner :=
  match validate_token token with
  | .error e => ([], Except.error e)
  | .ok _ =>
    let r : BotRunner := ⟨EduBot.mk⟩
    ([Event.constructBot] ++ r.run token, Except.ok r)

/-- An asyncio event loop: identity, debug flag, and the queue of
scheduled (not yet executed) coroutines. -/
structure EventLoop where
  id : Nat
  debug : Bool
  scheduled : List Coro
deriving DecidableEq, Repr

/-- The ambient event loop of the process (if one exists). -/
abbrev Ambient := Option EventLoop

/-- `asyncio.get_event_loop()`: returns the ambient loop if present,
otherwise creates a fresh one (with the given fresh identity, debug off,
empty queue) and installs it as the ambient loop. -/
def getEventLoop (amb : Ambient) (freshId : Nat) :
    EventLoop × Ambient × List Event :=
  match amb with
  | some l => (l, some l, [Event.getLoop l.id])
  | none =>
    let l : EventLoop := ⟨freshId, false, []⟩
    (l, some l, [Event.getLoop freshId])

/-- A task handle returned by `loop.create_task`, recording which loop
the coroutine was scheduled on. -/
structure Task where
  loopId : Nat
  coro : Coro
deriving DecidableEq, Repr

/-- `loop.create_task(coroutine)`: appends the coroutine to the loop's
queue and returns a task handle on that loop. -/
def loopCreateTask (l : EventLoop) (c : Coro) :
    EventLoop × Task × List Event :=
  ({ l with scheduled := l.scheduled ++ [c] }, ⟨l.id, c⟩,
   [Event.scheduleTask l.id c])

/-- The interactive runner object: the borrowed loop and the bot. -/
structure InteractiveBotRunner where
  loop : EventLoop
  bot : EduBot
deriving DecidableEq, Repr

/-- `InteractiveBotRunner.create_task`: `self.loop.create_task(coroutine)`. -/
def InteractiveBotRunner.create_task (r : InteractiveBotRunner) (c : Coro) :
    InteractiveBotRunner × Task × List Event :=
  let (l, t, ev) := loopCreateTask r.loop c
  ({ r with loop := l }, t, ev)

/-- `InteractiveBotRunner.run`: `self.create_task(self.bot.start(token))`.
The body has no `return` statement, so Python returns `None` — modelled
as `Option.none` in the task-handle position, despite the
`asyncio.Task` annotation. -/
def InteractiveBotRunner.run (r : InteractiveBotRunner) (token : PyVal) :
    InteractiveBotRunner × Option Task × List Event :=
  let (r2, _t, ev) := r.create_task (Coro.botStart token)
  (r2, Option.none, ev)

/-- `InteractiveBotRunner.__init__`: acquires the ambient event loop
(creating one if none exists), sets its debug flag, then delegates to
`BotRunner.__init__`, whose `self.run(token)` dynamically dispatches to
the overridden non-blocking `run` above.  `self.loop` aliases the
ambient loop, so ambient state is updated in lockstep. -/
def InteractiveBotRunner.init (token : PyVal) (amb : Ambient)
    (freshId : Nat) :
    List Event × Ambient × Except String InteractiveBotRunner :=
  let (l, _amb1, ev1) := getEventLoop amb freshId
  let l2 := { l with debug := true }
  let ev2 := ev1 ++ [Event.setLoopDebug l.id true]
  match validate_token token with
  | .error e => (ev2, some l2, Except.error e)
  | .ok _ =>
    let r : InteractiveBotRunner := ⟨l2, EduBot.mk⟩
    let (r2, _t, ev3) := r.run token
    (ev2 ++ [Event.constructBot] ++ ev3, some r2.loop, Except.ok r2)

/-- Module-level `TOKEN = os.getenv("DISCORD_TOKEN")`: the environment
value as a Python value (`None` when the variable is unset). -/
def TOKEN (env : Option String) : PyVal :=
  match env with
  | some s => PyVal.str s
  | none => PyVal.pyNone

/-- The token the `click` CLI passes to `BotRunner`: the `--token` flag
value when given, otherwise the module-level `TOKEN` default. -/
def cliToken (env : Option String) (flag : Option String) : PyVal :=
  match flag with
  | some x => PyVal.str x
  | none => TOKEN env

/-- `cli`: constructs (and thereby runs) a `BotRunner` with the
resolved token. -/
def cli (env : Option String) (flag : Option String) :
    List Event × Except String BotRunner :=
  BotRunner.init (cliToken env flag)

/-- The IPython environment: the package may be missing, importable but
with no active console, or importable with an active console (shell). -/
inductive IPythonEnv where
  | noPackage
  | packageNoConsole
  | console (shellId : Nat)
deriving DecidableEq, Repr

/-- A possible value returned by `is_ipython`: Python `False`, `None`
(from `get_ipython()` outside a console), or a truthy shell object. -/
inductive ProbeResult where
  | pyFalse
  | pyNone
  | shell (shellId : Nat)
deriving DecidableEq, Repr

/-- Python truthiness of a probe result: only a shell object is truthy. -/
def truthy : ProbeResult → Bool
  | .shell _ => true
  | _ => false

/-- `from IPython import get_ipython`: fails with `ImportError` when
the package is absent. -/
def importIPython (env : IPythonEnv) : Except String Unit :=
  match env with
  | .noPackage => Except.error "No module named IPython"
  | _ => Except.ok ()

/-- `get_ipython()`: `None` outside a console, the shell inside one.
(Only called after the import succeeded.) -/
def get_ipython : IPythonEnv → ProbeResult
  | .noPackage => ProbeResult.pyNone
  | .packageNoConsole => ProbeResult.pyNone
  | .console sid => ProbeResult.shell sid

/-- `is_ipython`: tries the import and returns `get_ipython()`;
`except ImportError: return False`. -/
def is_ipython (env : IPythonEnv) : Except String ProbeResult :=
  match importIPython env with
  | .ok _ => Except.ok (get_ipython env)
  | .error _ => Except.ok ProbeResult.pyFalse

/-- An `ImportError` value, identified by its message. -/
structure ImportError where
  msg : String
deriving DecidableEq, Repr

/-- Observable actions of the module-level import fallback. -/
inductive ImportAction where
  | sysPathInsert
deriving DecidableEq, Repr

/-- The module-level `try: from edubot.bot import EduBot` block.
`installed`: whether the first import succeeds; `e`: the `ImportError`
it raises otherwise; `isPackage`: truthiness of `__package__`;
`localImport`: the outcome of the retried import after the
`sys.path.insert`.  In the installed case nothing happens; otherwise,
run as a local script the path is adjusted and the import retried,
while imported as a package the original error is re-raised. -/
def importEduBot (installed : Bool) (e : ImportError) (isPackage : Bool)
    (localImport : Except ImportError Unit) :
    List ImportAction × Except ImportError Unit :=
  if installed then ([], Except.ok ())
  else if !isPackage then ([ImportAction.sysPathInsert], localImport)
  else ([], Except.error e)

end EduBotRun

namespace EduBotRun

/-- Whether the IPython environment has an active console. -/
def isConsoleEnv : IPythonEnv → Bool
  | .console _ => true
  | _ => false

/-- Invalid tokens (empty string or non-string) make `validate_token`
fail with the fixed message. -/
theorem validate_token_invalid (token : PyVal)
    (h : token = PyVal.str "" ∨ isinstance_str token = false) :
    validate_token token = Except.error tokenErrorMsg := by
  cases token with
  | str s =>
    rcases h with h | h
    · cases h; rfl
    · simp [isinstance_str] at h
  | pyNone => rfl
  | other => rfl

/-- A non-empty string has nonzero length. -/
theorem length_ne_zero_of_ne_empty (s : String) (h : s ≠ "") :
    s.length ≠ 0 := by
  intro h0
  apply h
  cases s with
  | mk data =>
    have hd : data = [] := List.length_eq_zero.mp h0
    simp [hd]

/-- Non-empty string tokens pass `validate_token`. -/
theorem validate_token_valid (s : String) (h : s ≠ "") :
    validate_token (PyVal.str s) = Except.ok () := by
  have hl := length_ne_zero_of_ne_empty s h
  simp [validate_token, isinstance_str, pyLen, hl]

/-- C1: for every token that is the empty string or not a string,
constructing `BotRunner` or `InteractiveBotRunner` fails with the fixed
assertion message "No Discord API token could be retrieved", and no bot
object is constructed before the failure (no `constructBot` event). -/
theorem invalid_token_construction_fails_fast (token : PyVal)
    (amb : Ambient) (freshId : Nat)
    (h : token = PyVal.str "" ∨ isinstance_str token = false) :
    BotRunner.init token = ([], Except.error tokenErrorMsg) ∧
    (InteractiveBotRunner.init token amb freshId).2.2 =
      Except.error tokenErrorMsg ∧
    Event.constructBot ∉ (InteractiveBotRunner.init token amb freshId).1 := by
  have hv := validate_token_invalid token h
  refine ⟨?_, ?_, ?_⟩
  · simp [BotRunner.init, hv]
  · cases amb <;> simp [InteractiveBotRunner.init, getEventLoop, hv]
  · cases amb <;> simp [InteractiveBotRunner.init, getEventLoop, hv]

/-- Witness for C1 at the concrete invalid token `None`. -/
theorem invalid_token_construction_fails_fast_witness :
    (PyVal.pyNone = PyVal.str "" ∨ isinstance_str PyVal.pyNone = false) ∧
    (BotRunner.init PyVal.pyNone = ([], Except.error tokenErrorMsg) ∧
     (InteractiveBotRunner.init PyVal.pyNone none 0).2.2 =
       Except.error tokenErrorMsg ∧
     Event.constructBot ∉ (InteractiveBotRunner.init PyVal.pyNone none 0).1) :=
  ⟨Or.inr rfl,
   invalid_token_construction_fails_fast PyVal.pyNone none 0 (Or.inr rfl)⟩

/-- C2: for every non-empty string token, `BotRunner` construction
passes validation, constructs exactly one bot, and calls the bot's
blocking run exactly once with that token: the event trace is exactly
`[constructBot, botRunBlocking token]`. -/
theorem valid_token_constructs_and_runs_once (s : String) (h : s ≠ "") :
    validate_token (PyVal.str s) = Except.ok () ∧
    BotRunner.init (PyVal.str s) =
      ([Event.constructBot, Event.botRunBlocking (PyVal.str s)],
       Except.ok ⟨EduBot.mk⟩) := by
  have hv := validate_token_valid s h
  exact ⟨hv, by simp [BotRunner.init, hv, BotRunner.run]⟩

/-- Witness for C2 at the concrete token "x". -/
theorem valid_token_constructs_and_runs_once_witness :
    "x" ≠ "" ∧
    (validate_token (PyVal.str "x") = Except.ok () ∧
     BotRunner.init (PyVal.str "x") =
       ([Event.constructBot, Event.botRunBlocking (PyVal.str "x")],
        Except.ok ⟨EduBot.mk⟩)) :=
  ⟨by decide, valid_token_constructs_and_runs_once "x" (by decide)⟩

/-- C3: for every valid token, `InteractiveBotRunner.run` does not
block: it emits exactly one `scheduleTask` event for the bot's start
coroutine on the runner's own loop, appends it to the scheduled (not
executed) queue, and never emits an `executeCoro` event. -/
theorem interactive_run_schedules_without_blocking
    (r : InteractiveBotRunner) (token : PyVal) (lid : Nat) (c : Coro)
    (h : validate_token token = Except.ok ()) :
    (r.run token).2.2 =
      [Event.scheduleTask r.loop.id (Coro.botStart token)] ∧
    (r.run token).1.loop.scheduled =
      r.loop.scheduled ++ [Coro.botStart token] ∧
    Event.executeCoro lid c ∉ (r.run token).2.2 := by
  refine ⟨rfl, rfl, ?_⟩
  simp [InteractiveBotRunner.run, InteractiveBotRunner.create_task,
    loopCreateTask]

/-- Witness for C3 at a concrete runner and token. -/
theorem interactive_run_schedules_without_blocking_witness :
    validate_token (PyVal.str "x") = Except.ok () ∧
    ((InteractiveBotRunner.mk ⟨0, true, []⟩ EduBot.mk |>.run
        (PyVal.str "x")).2.2 =
      [Event.scheduleTask 0 (Coro.botStart (PyVal.str "x"))] ∧
     (InteractiveBotRunner.mk ⟨0, true, []⟩ EduBot.mk |>.run
        (PyVal.str "x")).1.loop.scheduled =
      [] ++ [Coro.botStart (PyVal.str "x")] ∧
     Event.executeCoro 0 (Coro.userCoro 0) ∉
       (InteractiveBotRunner.mk ⟨0, true, []⟩ EduBot.mk |>.run
         (PyVal.str "x")).2.2) :=
  ⟨rfl,
   interactive_run_schedules_without_blocking
     (InteractiveBotRunner.mk ⟨0, true, []⟩ EduBot.mk) (PyVal.str "x") 0
     (Coro.userCoro 0) rfl⟩

/-- C4: the CLI uses the environment token when no `--token` flag is
given, and uses the flag value `X` (ignoring the environment) when
`--token=X` is given. -/
theorem cli_token_resolution (env : Option String) (x : String) :
    cliToken env (some x) = PyVal.str x ∧
    cli env (some x) = BotRunner.init (PyVal.str x) ∧
    cliToken env none = TOKEN env ∧
    cli env none = BotRunner.init (TOKEN env) :=
  ⟨rfl, rfl, rfl, rfl⟩

/-- C5: `InteractiveBotRunner.create_task` returns a task handle whose
loop identity is exactly the runner's own loop (`self.loop`), with the
coroutine appended to that same loop's queue. -/
theorem create_task_schedules_on_runner_loop
    (r : InteractiveBotRunner) (c : Coro) :
    (r.create_task c).2.1 = Task.mk r.loop.id c ∧
    (r.create_task c).2.1.loopId = r.loop.id ∧
    (r.create_task c).1.loop.id = r.loop.id ∧
    (r.create_task c).1.loop.scheduled = r.loop.scheduled ++ [c] :=
  ⟨rfl, rfl, rfl, rfl⟩

/-- C6: when no interactive console is present (package absent, or
present but without an active console), `is_ipython` returns a falsy
value and does not raise. -/
theorem is_ipython_falsy_without_console (env : IPythonEnv)
    (h : isConsoleEnv env = false) :
    ∃ res, is_ipython env = Except.ok res ∧ truthy res = false := by
  cases env with
  | noPackage => exact ⟨ProbeResult.pyFalse, rfl, rfl⟩
  | packageNoConsole => exact ⟨ProbeResult.pyNone, rfl, rfl⟩
  | console sid => simp [isConsoleEnv] at h

/-- Witness for C6 with the IPython package absent. -/
theorem is_ipython_falsy_without_console_witness :
    isConsoleEnv IPythonEnv.noPackage = false ∧
    ∃ res, is_ipython IPythonEnv.noPackage = Except.ok res ∧
      truthy res = false :=
  ⟨rfl, is_ipython_falsy_without_console IPythonEnv.noPackage rfl⟩

/-- C7: constructing an `InteractiveBotRunner` acquires the ambient
event loop (the existing one when present, a freshly created one
otherwise), enables debug mode on it before the parent constructor
runs, and then runs in the non-blocking scheduled mode: the trace is
acquire, set-debug, construct-bot, schedule — with no blocking
`botRunBlocking` event anywhere. -/
theorem interactive_init_acquires_loop_then_schedules (token : PyVal)
    (l : EventLoop) (freshId : Nat)
    (h : validate_token token = Except.ok ()) :
    (∃ r : InteractiveBotRunner,
      InteractiveBotRunner.init token (some l) freshId =
        ([Event.getLoop l.id, Event.setLoopDebug l.id true,
          Event.constructBot,
          Event.scheduleTask l.id (Coro.botStart token)],
         some r.loop, Except.ok r) ∧
      r.loop.id = l.id ∧ r.loop.debug = true) ∧
    (∃ r : InteractiveBotRunner,
      InteractiveBotRunner.init token none freshId =
        ([Event.getLoop freshId, Event.setLoopDebug freshId true,
          Event.constructBot,
          Event.scheduleTask freshId (Coro.botStart token)],
         some r.loop, Except.ok r) ∧
      r.loop.id = freshId ∧ r.loop.debug = true) ∧
    (∀ t, Event.botRunBlocking t ∉
      (InteractiveBotRunner.init token (some l) freshId).1) ∧
    (∀ t, Event.botRunBlocking t ∉
      (InteractiveBotRunner.init token none freshId).1) := by
  refine ⟨⟨⟨⟨l.id, true, l.scheduled ++ [Coro.botStart token]⟩,
      EduBot.mk⟩, ?_, rfl, rfl⟩,
    ⟨⟨⟨freshId, true, [Coro.botStart token]⟩, EduBot.mk⟩, ?_, rfl, rfl⟩,
    ?_, ?_⟩ <;>
  · simp [InteractiveBotRunner.init, getEventLoop, h,
      InteractiveBotRunner.run, InteractiveBotRunner.create_task,
      loopCreateTask]

/-- Witness for C7 at token "x", an existing loop of identity 5, and
fresh identity 7. -/
theorem interactive_init_acquires_loop_then_schedules_witness :
    validate_token (PyVal.str "x") = Except.ok () ∧
    ((∃ r : InteractiveBotRunner,
      InteractiveBotRunner.init (PyVal.str "x")
          (some ⟨5, false, []⟩) 7 =
        ([Event.getLoop (5 : Nat), Event.setLoopDebug 5 true,
          Event.constructBot,
          Event.scheduleTask 5 (Coro.botStart (PyVal.str "x"))],
         some r.loop, Except.ok r) ∧
      r.loop.id = 5 ∧ r.loop.debug = true) ∧
    (∃ r : InteractiveBotRunner,
      InteractiveBotRunner.init (PyVal.str "x") none 7 =
        ([Event.getLoop (7 : Nat), Event.setLoopDebug 7 true,
          Event.constructBot,
          Event.scheduleTask 7 (Coro.botStart (PyVal.str "x"))],
         some r.loop, Except.ok r) ∧
      r.loop.id = 7 ∧ r.loop.debug = true) ∧
    (∀ t, Event.botRunBlocking t ∉
      (InteractiveBotRunner.init (PyVal.str "x")
          (some ⟨5, false, []⟩) 7).1) ∧
    (∀ t, Event.botRunBlocking t ∉
      (InteractiveBotRunner.init (PyVal.str "x") none 7).1)) :=
  ⟨rfl, interactive_init_acquires_loop_then_schedules (PyVal.str "x")
    ⟨5, false, []⟩ 7 rfl⟩

/-- C8: at module import, when `edubot.bot` is missing and `run.py` is
imported as a package, the original `ImportError` is re-raised
unmodified with no path adjustment; only the run-as-local-script case
inserts into `sys.path` and retries; a successful install never touches
the path. -/
theorem import_fallback_behaviour (e : ImportError)
    (localImport : Except ImportError Unit) :
    importEduBot false e true localImport = ([], Except.error e) ∧
    importEduBot false e false localImport =
      ([ImportAction.sysPathInsert], localImport) ∧
    (importEduBot true e true localImport).1 = [] ∧
    (importEduBot true e false localImport).1 = [] :=
  ⟨rfl, rfl, rfl, rfl⟩

/-- C9: `InteractiveBotRunner.run` returns `None` (the internally
created task handle is discarded), even though it does schedule the
start coroutine. -/
theorem interactive_run_returns_none (r : InteractiveBotRunner)
    (token : PyVal) :
    (r.run token).2.1 = Option.none ∧
    (r.run token).2.2 =
      [Event.scheduleTask r.loop.id (Coro.botStart token)] :=
  ⟨rfl, rfl⟩

/-- C10: for an invalid token, `InteractiveBotRunner` construction is
not atomic: it acquires the ambient loop and sets its debug flag to
`true`, and only then fails validation, leaving the borrowed loop's
debug state mutated while the construction errors out. -/
theorem interactive_init_mutates_debug_before_validation (token : PyVal)
    (l : EventLoop) (freshId : Nat)
    (h : token = PyVal.str "" ∨ isinstance_str token = false) :
    InteractiveBotRunner.init token (some l) freshId =
      ([Event.getLoop l.id, Event.setLoopDebug l.id true],
       some { l with debug := true }, Except.error tokenErrorMsg) ∧
    InteractiveBotRunner.init token none freshId =
      ([Event.getLoop freshId, Event.setLoopDebug freshId true],
       some ⟨freshId, true, []⟩, Except.error tokenErrorMsg) := by
  have hv := validate_token_invalid token h
  constructor <;>
  · simp [InteractiveBotRunner.init, getEventLoop, hv]

/-- Witness for C10 at the invalid token `None`, an existing loop of
identity 3 with debug off, and fresh identity 4. -/
theorem interactive_init_mutates_debug_before_validation_witness :
    (PyVal.pyNone = PyVal.str "" ∨ isinstance_str PyVal.pyNone = false) ∧
    (InteractiveBotRunner.init PyVal.pyNone (some ⟨3, false, []⟩) 4 =
      ([Event.getLoop (3 : Nat), Event.setLoopDebug 3 true],
       some ⟨3, true, []⟩, Except.error tokenErrorMsg) ∧
     InteractiveBotRunner.init PyVal.pyNone none 4 =
      ([Event.getLoop (4 : Nat), Event.setLoopDebug 4 true],
       some ⟨4, true, []⟩, Except.error tokenErrorMsg)) :=
  ⟨Or.inr rfl, interactive_init_mutates_debug_before_validation
    PyVal.pyNone ⟨3, false, []⟩ 4 (Or.inr rfl)⟩

end EduBotRun
